import Mathlib

/-!
Verification of the storefront theme interaction scripts.

Shallow embedding of the browser-side scripts of the repository:
the product form controller and cart drawer (assets/section-cart.js),
the predictive search modal, and the collection filter controllers.
DOM state is modelled by explicit records, network responses by
explicit parameters, and event-loop interleavings by a step relation.
-/

/-! ## Product data model (product page script)

A variant as parsed from the embedded product JSON.  The JS code reads
the fields `option1`, `option2`, ... ; we model them as a list of
optional strings where `none` stands for a JS `undefined` field. -/

structure Variant where
  id : Nat
  options : List (Option String)
  price : Nat
  compare_at_price : Option Nat
  available : Bool
  sku : Option String
  featured_media : Option Nat
deriving DecidableEq, Repr

structure Product where
  variants : List Variant
  /-- Declared option group names, in order. -/
  options : List String
deriving DecidableEq, Repr

/-- The value of the field `optionN` with N = i+1, or `none` when the
variant carries no such field. -/
def variantOption (v : Variant) (i : Nat) : Option String :=
  (v.options[i]?).join

/-- The body of the predicate passed to `variants.find` in
`getVariantFromOptions`: `options.every((option, index) =>
variant[option(index+1)] === option)`. -/
def matchesOptions (v : Variant) (opts : List String) : Bool :=
  opts.enum.all (fun p => variantOption v p.1 == some p.2)

/-- `getVariantFromOptions(options)`: returns `null` when the product
JSON is absent, otherwise the first variant whose per-position option
values equal the selected values. -/
def getVariantFromOptions (p : Option Product) (opts : List String) : Option Variant :=
  match p with
  | none => none
  | some pr => pr.variants.find? (fun v => matchesOptions v opts)

/-! ## Product form DOM state and the option-change pipeline -/

/-- One option button (a `.product__option-button` with its inner input). -/
structure OptButton where
  value : String
  checked : Bool
  disabled : Bool
  /-- Whether the class `product__option-button--unavailable` is set. -/
  unavailable : Bool
deriving DecidableEq, Repr

/-- Rendered content of the price container. -/
inductive PriceHtml where
  | sale (price compareAt : Nat)
  | regular (price : Nat)
deriving DecidableEq, Repr

/-- The DOM state the product form controller reads and writes. -/
structure ProductFormState where
  /-- Value of the hidden `[data-variant-id]` input. -/
  variantIdInput : Option Nat
  /-- Content of `[data-product-price]`; `none` = initial server markup. -/
  priceHtml : Option PriceHtml
  btnDisabled : Bool
  btnText : String
  /-- The `[data-option-value]` label spans, one per option group. -/
  optionLabels : List String
  skuText : Option String
  skuHidden : Bool
  /-- The `variant` query parameter of the page URL. -/
  urlVariant : Option Nat
  /-- Active gallery media id. -/
  galleryMedia : Option Nat
  /-- Option buttons, grouped by `[data-option-index]` group. -/
  optionGroups : List (List OptButton)
deriving DecidableEq, Repr

/-- `getSelectedOptions()`: for each option group, the value of its
checked input, skipping groups with no checked input. -/
def getSelectedOptions (s : ProductFormState) : List String :=
  s.optionGroups.filterMap (fun g =>
    Option.map (fun b => b.value) (g.find? (fun b => b.checked)))

/-- `updateVariantId(variant)`: writes the hidden input only when a
variant is resolved. -/
def updateVariantId (variant : Option Variant) (s : ProductFormState) : ProductFormState :=
  match variant with
  | some v => { s with variantIdInput := some v.id }
  | none => s

/-- Price markup built by `updatePrice` for a resolved variant. -/
def renderPrice (v : Variant) : PriceHtml :=
  match v.compare_at_price with
  | some cap => if cap > v.price then PriceHtml.sale v.price cap else PriceHtml.regular v.price
  | none => PriceHtml.regular v.price

/-- `updatePrice(variant)`: returns early when no variant is resolved. -/
def updatePrice (variant : Option Variant) (s : ProductFormState) : ProductFormState :=
  match variant with
  | none => s
  | some v => { s with priceHtml := some (renderPrice v) }

/-- `updateAddToCartButton(variant)`; the translation fallbacks are the
literal strings used by the code. -/
def updateAddToCartButton (variant : Option Variant) (s : ProductFormState) : ProductFormState :=
  match variant with
  | none => { s with btnDisabled := true, btnText := "Unavailable" }
  | some v =>
    if v.available then { s with btnDisabled := false, btnText := "Add to Cart" }
    else { s with btnDisabled := true, btnText := "Sold Out" }

/-- `updateOptionLabels(selectedOptions)`: sets each group label to the
selected value when that value is defined and truthy (non-empty). -/
def updateOptionLabels (sel : List String) (s : ProductFormState) : ProductFormState :=
  { s with optionLabels := s.optionLabels.enum.map (fun p =>
      match sel[p.1]? with
      | some v => if v = "" then p.2 else v
      | none => p.2) }

/-- `updateSku(variant)`: shows the SKU only when the variant has a
truthy (non-empty) sku. -/
def updateSku (variant : Option Variant) (s : ProductFormState) : ProductFormState :=
  match variant with
  | some v =>
    match v.sku with
    | some sk =>
      if sk = "" then { s with skuHidden := true }
      else { s with skuText := some ("SKU: " ++ sk), skuHidden := false }
    | none => { s with skuHidden := true }
  | none => { s with skuHidden := true }

/-- `updateUrl(variant)`: returns early when no variant is resolved,
otherwise sets the `variant` query parameter. -/
def updateUrl (variant : Option Variant) (s : ProductFormState) : ProductFormState :=
  match variant with
  | none => s
  | some v => { s with urlVariant := some v.id }

/-- JS array copy-and-assign `testOptions = [...sel]; testOptions[i] = x`:
assigning past the end creates holes, modelled as `none` entries. -/
def jsArraySet (l : List String) (i : Nat) (x : String) : List (Option String) :=
  if i < l.length then (l.map some).set i (some x)
  else l.map some ++ List.replicate (i - l.length) none ++ [some x]

/-- The matching predicate of `updateOptionAvailability` for candidate
value `value` of group `gi`: `every` skips array holes; positions above
`gi` are unconstrained. -/
def availabilityPred (sel : List String) (gi : Nat) (value : String) (v : Variant) : Bool :=
  (jsArraySet sel gi value).enum.all (fun p =>
    match p.2 with
    | none => true
    | some opt =>
      if p.1 = gi then variantOption v p.1 == some opt
      else if p.1 < gi then variantOption v p.1 == sel[p.1]?
      else true)

/-- Per-button update performed by `updateOptionAvailability`. -/
def updateButton (pr : Product) (sel : List String) (gi : Nat) (b : OptButton) : OptButton :=
  match pr.variants.find? (fun v => availabilityPred sel gi b.value v) with
  | some mv => { b with unavailable := !mv.available, disabled := false }
  | none => { b with unavailable := true, disabled := true }

/-- `updateOptionAvailability(selectedOptions)`: no-op for products with
fewer than two option groups; otherwise re-derives the disabled and
unavailable flags of every option button. -/
def updateOptionAvailability (p : Option Product) (sel : List String)
    (s : ProductFormState) : ProductFormState :=
  match p with
  | none => s
  | some pr =>
    if pr.options.length < 2 then s
    else { s with optionGroups := s.optionGroups.enum.map (fun g =>
        g.2.map (fun b => updateButton pr sel g.1 b)) }

/-- `ProductGallery.updateMedia(variantId, product)`: switches the
gallery to the featured media of the variant with this id, if any. -/
def updateMedia (variantId : Nat) (p : Option Product) (s : ProductFormState) : ProductFormState :=
  match p with
  | none => s
  | some pr =>
    match pr.variants.find? (fun v => v.id == variantId) with
    | some v =>
      match v.featured_media with
      | some m => { s with galleryMedia := some m }
      | none => s
    | none => s

/-- `onOptionChange()`: resolves the variant from the current selection
and runs every DOM updater in source order. -/
def onOptionChange (p : Option Product) (s : ProductFormState) : ProductFormState :=
  let sel := getSelectedOptions s
  let variant := getVariantFromOptions p sel
  let s1 := updateVariantId variant s
  let s2 := updatePrice variant s1
  let s3 := updateAddToCartButton variant s2
  let s4 := updateOptionLabels sel s3
  let s5 := updateSku variant s4
  let s6 := updateUrl variant s5
  let s7 := updateOptionAvailability p sel s6
  match variant with
  | some v => updateMedia v.id p s7
  | none => s7

/-! ## Cart drawer (section-cart.js)

A cart snapshot as returned by the `/cart.js` endpoint, and the drawer
DOM state the controller writes. -/

structure Cart where
  item_count : Nat
  total_price : Nat
deriving DecidableEq, Repr

/-- The drawer DOM the cart controller reads and writes. -/
structure CartView where
  /-- Text of `[data-cart-count-drawer]`. -/
  drawerCount : String
  /-- Text of `[data-cart-drawer-subtotal]`. -/
  drawerSubtotal : String
  /-- Text of the header `[data-cart-count]` badge. -/
  headerCount : String
  headerHidden : Bool
  /-- Whether the class `cart-drawer--loading` is set. -/
  loading : Bool
deriving DecidableEq, Repr

/-- Observable outcome of one mutation: the final DOM state, the
console-error messages emitted, and whether `location.reload` fired. -/
structure CartObs where
  view : CartView
  logs : List String
  reloaded : Bool
deriving DecidableEq, Repr

/-- Outcome of the `/cart/change.js` request: a network error (the
promise rejects), or a response with its `ok` flag. -/
inductive ChangeResult where
  | netError
  | resp (ok : Bool)
deriving DecidableEq, Repr

/-- Outcome of the two fetches inside `refresh()`: either one of them
throws, or the `/cart.js` read yields a cart snapshot. -/
inductive RefreshResult where
  | fetchErr
  | cart (c : Cart)
deriving DecidableEq, Repr

/-- Two-digit fractional part of `(cents / 100).toFixed(2)`. -/
def pad2 (r : Nat) : String :=
  if r < 10 then "0" ++ toString r else toString r

/-- `formatMoney(cents)` of the drawer: fixed `RSD` suffix. -/
def formatMoney (cents : Nat) : String :=
  toString (cents / 100) ++ "." ++ pad2 (cents % 100) ++ " RSD"

/-- `setLoading(loading)`. -/
def setLoading (b : Bool) (v : CartView) : CartView :=
  { v with loading := b }

/-- `updateDrawerContent(cart)`: patches count and subtotal from the
snapshot and reloads the page when the snapshot is empty.  The second
component records whether `location.reload` was invoked. -/
def updateDrawerContent (cart : Cart) (v : CartView) : CartView × Bool :=
  ({ v with drawerCount := "(" ++ toString cart.item_count ++ ")",
            drawerSubtotal := formatMoney cart.total_price },
   cart.item_count == 0)

/-- `updateHeaderCount()`: patches the header badge from a further
`/cart.js` read (`none` = that read failed and did nothing). -/
def updateHeaderCount (hdr : Option Cart) (v : CartView) : CartView :=
  match hdr with
  | none => v
  | some c => { v with headerCount := toString c.item_count,
                       headerHidden := c.item_count == 0 }

/-- `refresh()`: re-fetches the cart snapshot and patches the drawer;
a thrown fetch error is caught and logged. -/
def refresh (rf : RefreshResult) (v : CartView) : CartView × List String × Bool :=
  match rf with
  | RefreshResult.fetchErr => (v, ["Error refreshing cart:"], false)
  | RefreshResult.cart c =>
    let p := updateDrawerContent c v
    (p.1, [], p.2)

/-- `updateItem(lineKey, quantity)`: the full mutation flow, given the
outcome of the change request, of the refresh fetches, and of the
header-count read. -/
def updateItem (r : ChangeResult) (rf : RefreshResult) (hdr : Option Cart)
    (v : CartView) : CartObs :=
  let v1 := setLoading true v
  match r with
  | ChangeResult.netError =>
    { view := setLoading false v1, logs := ["Error updating cart:"], reloaded := false }
  | ChangeResult.resp false =>
    { view := setLoading false v1, logs := [], reloaded := false }
  | ChangeResult.resp true =>
    let p := refresh rf v1
    let v2 := updateHeaderCount hdr p.1
    { view := setLoading false v2, logs := p.2.1, reloaded := p.2.2 }

/-! Requests sent to `/cart/change.js` by the drawer controls. -/

/-- Body of a `/cart/change.js` request from the drawer. -/
structure ChangeReq where
  id : String
  quantity : Nat
deriving DecidableEq, Repr

/-- The request built by `updateItem(lineKey, quantity)`. -/
def updateItemReq (lineKey : String) (quantity : Nat) : ChangeReq :=
  ⟨lineKey, quantity⟩

/-- `removeItem(lineKey)`, defined as `updateItem(lineKey, 0)`. -/
def removeItemReq (lineKey : String) : ChangeReq :=
  updateItemReq lineKey 0

/-- `parseInt(valueEl?.textContent) || 1`: a missing or zero parse
falls back to 1. -/
def displayedQty (parsed : Option Nat) : Nat :=
  match parsed with
  | none => 1
  | some 0 => 1
  | some n => n

/-- The request issued by the drawer quantity-minus handler. -/
def minusButtonReq (lineKey : String) (parsed : Option Nat) : ChangeReq :=
  let currentQty := displayedQty parsed
  if currentQty > 1 then updateItemReq lineKey (currentQty - 1)
  else removeItemReq lineKey

/-- The request issued by the drawer remove-item handler. -/
def removeButtonReq (lineKey : String) : ChangeReq :=
  removeItemReq lineKey

/-! ## Predictive search modal

The rendered content of the results panel, and an event-loop model of
`onInput` / debounce timer fire / fetch completion. -/

inductive Panel where
  | initial
  /-- The placeholder written by `clearResults()`. -/
  | placeholder
  /-- The fragment rendered for a completed query. -/
  | results (q : String)
  /-- The panel written by `showNoResults(query)`. -/
  | noResults (q : String)
deriving DecidableEq, Repr

/-- `this.minChars = 3`. -/
def minChars : Nat := 3

/-- Outcome carried by a completed (non-aborted) fetch. -/
inductive RespOutcome where
  /-- HTTP ok; the flag says whether the fragment contains a
  `[data-predictive-search]` element. -/
  | success (found : Bool)
  /-- Network error or non-ok status: the promise chain throws an error
  whose name is not AbortError. -/
  | fail
deriving DecidableEq, Repr

inductive SearchEvent where
  /-- An input event; `q` is the trimmed input value. -/
  | input (q : String)
  /-- The debounce timer fires. -/
  | timerFire
  /-- The fetch with controller id `id` completes. -/
  | respond (id : Nat) (outcome : RespOutcome)
deriving DecidableEq, Repr

/-- The state of the search modal between event-loop turns.  Abort
controllers are named by increasing ids; `aborted` records the ids on
which `abort()` was called, `inflight` the issued fetches not yet
completed, and `lastIssued` the query of the most recently issued
fetch. -/
structure SearchState where
  nextId : Nat
  /-- `this.abortController`, by id. -/
  current : Option Nat
  aborted : List Nat
  /-- `this.debounceTimer`, with the query it will fetch. -/
  timer : Option String
  inflight : List (Nat × String)
  panel : Panel
  lastIssued : Option String
deriving DecidableEq, Repr

def searchInit : SearchState :=
  { nextId := 0, current := none, aborted := [], timer := none,
    inflight := [], panel := Panel.initial, lastIssued := none }

/-- The ids aborted after `this.abortController?.abort()`. -/
def abortCurrent (s : SearchState) : List Nat :=
  match s.current with
  | some id => id :: s.aborted
  | none => s.aborted

/-- The panel `fetchResults` writes for a settled, non-aborted fetch. -/
def respondPanel (q : String) (outcome : RespOutcome) : Panel :=
  match outcome with
  | RespOutcome.success true => Panel.results q
  | RespOutcome.success false => Panel.noResults q
  | RespOutcome.fail => Panel.noResults q

/-- One event-loop turn: `onInput` (clear timer, abort the pending
controller, then clear results or re-arm the debounce), the debounce
callback issuing `fetchResults`, or a fetch settling (an aborted fetch
rejects with AbortError and renders nothing). -/
def searchStep (s : SearchState) : SearchEvent → SearchState
  | SearchEvent.input q =>
    if q.length < minChars then
      { s with timer := none, aborted := abortCurrent s, panel := Panel.placeholder }
    else
      { s with timer := some q, aborted := abortCurrent s }
  | SearchEvent.timerFire =>
    match s.timer with
    | none => s
    | some q =>
      { s with timer := none,
               current := some s.nextId,
               inflight := (s.nextId, q) :: s.inflight,
               nextId := s.nextId + 1,
               lastIssued := some q }
  | SearchEvent.respond id outcome =>
    match s.inflight.find? (fun p => p.1 == id) with
    | none => s
    | some pr =>
      if id ∈ s.aborted then
        { s with inflight := s.inflight.filter (fun p => p.1 != id) }
      else
        { s with inflight := s.inflight.filter (fun p => p.1 != id),
                 panel := respondPanel pr.2 outcome }

/-- States reachable from the initial modal state by event-loop turns. -/
inductive SearchReachable : SearchState → Prop where
  | init : SearchReachable searchInit
  | step (e : SearchEvent) {s : SearchState} :
      SearchReachable s → SearchReachable (searchStep s e)

/-- The catch clause of `fetchResults`: an error named AbortError
renders nothing, any other error shows the no-results panel. -/
inductive FetchEnd where
  | ok (hasFragment : Bool)
  /-- A rejection, by JS error name: AbortError for an aborted request,
  TypeError for a network failure, Error for the non-ok-status throw. -/
  | error (name : String)
deriving DecidableEq, Repr

/-- The panel written by one run of `fetchResults(query)` given how its
promise chain settled. -/
def fetchResultsPanel (q : String) (e : FetchEnd) (panel : Panel) : Panel :=
  match e with
  | FetchEnd.ok true => Panel.results q
  | FetchEnd.ok false => Panel.noResults q
  | FetchEnd.error name => if name = "AbortError" then panel else Panel.noResults q

/-! ## Collection filters

Query-string construction shared by the drawer submit handler and the
sidebar auto-submit. -/

/-- `URLSearchParams.set` on an existing key: replace the first
occurrence and delete the rest. -/
def replaceParam : List (String × String) → String → String → List (String × String)
  | [], _, _ => []
  | p :: rest, k, v =>
    if p.1 = k then (k, v) :: rest.filter (fun q => q.1 ≠ k)
    else p :: replaceParam rest k v

/-- `URLSearchParams.set(k, v)`: replace when present, append when
absent. -/
def urlParamsSet (ps : List (String × String)) (k v : String) : List (String × String) :=
  if ps.any (fun p => p.1 = k) then replaceParam ps k v else ps ++ [(k, v)]

/-- Shared body of `FiltersDrawer.handleSubmit` and
`SidebarFilters.submitForm`: append every truthy form entry, then set
`sort_by` from the current location when that read is truthy
(`searchParams.get` returns null when absent and the empty string when
present but empty; both are falsy). -/
def buildFilterParams (entries : List (String × String)) (locSortBy : Option String) :
    List (String × String) :=
  let params := entries.filter (fun p => p.2 ≠ "")
  match locSortBy with
  | some s => if s = "" then params else urlParamsSet params "sort_by" s
  | none => params

/-- `FiltersDrawer.handleSubmit`: the query parameters of the URL it
navigates to. -/
def handleSubmitParams (entries : List (String × String)) (locSortBy : Option String) :
    List (String × String) :=
  buildFilterParams entries locSortBy

/-- `SidebarFilters.submitForm`: the query parameters of the URL it
navigates to (the body is a verbatim copy of the drawer handler). -/
def submitFormParams (entries : List (String × String)) (locSortBy : Option String) :
    List (String × String) :=
  buildFilterParams entries locSortBy

/-! ## Theorems -/

/-- C3: in the cart drawer, a quantity decrement at quantity 1 issues
exactly the request of the explicit remove button: a change request
with quantity 0 for that line key; `removeItem` is definitionally
`updateItem` with quantity 0, so the observable effect is identical. -/
theorem drawer_decrement_from_one_is_removal (k : String) :
    minusButtonReq k (some 1) = removeButtonReq k
    ∧ removeButtonReq k = updateItemReq k 0
    ∧ removeItemReq k = updateItemReq k 0 := by
  refine ⟨?_, rfl, rfl⟩
  simp [minusButtonReq, displayedQty, removeButtonReq, removeItemReq]

/-- C4: after a fully successful mutation (change request ok, refresh
fetches ok), the drawer count and subtotal are those computed from the
freshly fetched `/cart.js` snapshot alone, independent of the prior
view, and the page is reloaded exactly when the snapshot is empty. -/
theorem cart_mutation_uses_server_snapshot (snap : Cart) (hdr : Option Cart) (v : CartView) :
    (updateItem (ChangeResult.resp true) (RefreshResult.cart snap) hdr v).view.drawerCount
      = "(" ++ toString snap.item_count ++ ")"
    ∧ (updateItem (ChangeResult.resp true) (RefreshResult.cart snap) hdr v).view.drawerSubtotal
      = formatMoney snap.total_price
    ∧ ((updateItem (ChangeResult.resp true) (RefreshResult.cart snap) hdr v).reloaded = true
        ↔ snap.item_count = 0) := by
  cases hdr <;>
    simp [updateItem, refresh, updateDrawerContent, updateHeaderCount, setLoading]

/-- C8 (amended): a network error on the change request is caught and
logged; a non-ok HTTP response is silently skipped without logging; in
both cases the prior DOM state is left unchanged apart from the loading
flag, which is cleared, and no reload fires. -/
theorem cart_mutation_failure_leaves_dom (rf : RefreshResult) (hdr : Option Cart) (v : CartView) :
    (updateItem ChangeResult.netError rf hdr v).view = setLoading false v
    ∧ (updateItem ChangeResult.netError rf hdr v).logs = ["Error updating cart:"]
    ∧ (updateItem ChangeResult.netError rf hdr v).reloaded = false
    ∧ (updateItem (ChangeResult.resp false) rf hdr v).view = setLoading false v
    ∧ (updateItem (ChangeResult.resp false) rf hdr v).logs = []
    ∧ (updateItem (ChangeResult.resp false) rf hdr v).reloaded = false := by
  simp [updateItem, setLoading]

/-- C8 counterexample: a non-success HTTP status on the change request
emits no console log at all, against the claim that such a failure is
caught and logged. -/
theorem cart_status_failure_not_logged :
    (updateItem (ChangeResult.resp false) (RefreshResult.cart ⟨2, 1000⟩) none
      ⟨"(2)", "10.00 RSD", "2", false, false⟩).logs = [] := rfl

/-- C6: the catch clause distinguishes cancellation from genuine
failure: an AbortError leaves the panel exactly as it was, while any
other error (network TypeError, or the Error thrown on a non-ok
status) shows the no-results state for the query. -/
theorem search_cancel_vs_failure (q : String) (panel : Panel) :
    fetchResultsPanel q (FetchEnd.error "AbortError") panel = panel
    ∧ (∀ name, name ≠ "AbortError" →
        fetchResultsPanel q (FetchEnd.error name) panel = Panel.noResults q) := by
  constructor
  · simp [fetchResultsPanel]
  · intro name h
    simp [fetchResultsPanel, h]

/-- C6 witness: concrete instances of the cancellation and failure
branches. -/
theorem search_cancel_vs_failure_witness :
    fetchResultsPanel "abc" (FetchEnd.error "AbortError") Panel.initial = Panel.initial
    ∧ fetchResultsPanel "abc" (FetchEnd.error "TypeError") Panel.initial
        = Panel.noResults "abc" :=
  ⟨(search_cancel_vs_failure "abc" Panel.initial).1,
   (search_cancel_vs_failure "abc" Panel.initial).2 "TypeError" (by decide)⟩

/-- Helper: the truthy-filtered form entries contain no key that the
form does not carry. -/
theorem filter_keeps_keys (entries : List (String × String)) (k : String)
    (h : ∀ p ∈ entries, p.1 ≠ k) :
    ∀ p ∈ entries.filter (fun p => p.2 ≠ ""), p.1 ≠ k := by
  intro p hp
  exact h p (List.mem_of_mem_filter hp)

/-- C9 (amended): when the form carries no `sort_by` field, both filter
submit handlers append `sort_by` with the value read from the current
location whenever that value is present and non-empty, and emit no
`sort_by` parameter when the location carries none. -/
theorem filter_submit_preserves_sort (entries : List (String × String))
    (h : ∀ p ∈ entries, p.1 ≠ "sort_by") :
    (∀ s, s ≠ "" →
      handleSubmitParams entries (some s)
          = entries.filter (fun p => p.2 ≠ "") ++ [("sort_by", s)]
      ∧ ("sort_by", s) ∈ handleSubmitParams entries (some s)
      ∧ submitFormParams entries (some s) = handleSubmitParams entries (some s))
    ∧ (∀ v, ("sort_by", v) ∉ handleSubmitParams entries none)
    ∧ (∀ v, ("sort_by", v) ∉ submitFormParams entries none) := by
  have hkeys := filter_keeps_keys entries "sort_by" h
  have hany : (entries.filter (fun p => p.2 ≠ "")).any (fun p => p.1 = "sort_by") = false := by
    rw [List.any_eq_false]
    intro p hp
    simpa using hkeys p hp
  have hnone : ∀ v, ("sort_by", v) ∉ entries.filter (fun p => p.2 ≠ "") := by
    intro v hv
    exact hkeys ("sort_by", v) hv rfl
  refine ⟨?_, hnone, hnone⟩
  intro s hs
  have heq : handleSubmitParams entries (some s)
      = entries.filter (fun p => p.2 ≠ "") ++ [("sort_by", s)] := by
    simp only [handleSubmitParams, buildFilterParams, urlParamsSet, hs, if_neg hs, hany]
    simp
  exact ⟨heq, by rw [heq]; exact List.mem_append_right _ (by simp), rfl⟩

/-- C9 witness: a concrete form with one truthy and one empty entry,
and a concrete location sort value. -/
theorem filter_submit_preserves_sort_witness :
    ("sort_by", "newest") ∈ handleSubmitParams [("color", "red"), ("size", "")] (some "newest")
    ∧ ("sort_by", "newest") ∉ handleSubmitParams [("color", "red"), ("size", "")] none := by
  refine ⟨((filter_submit_preserves_sort [("color", "red"), ("size", "")]
      (by decide)).1 "newest" (by decide)).2.1, ?_⟩
  exact (filter_submit_preserves_sort [("color", "red"), ("size", "")]
      (by decide)).2.1 "newest"

/-- C9 counterexample: a location whose `sort_by` parameter is present
but empty (`?sort_by=`) is read as the empty string, which is falsy, so
the submitted URL carries no `sort_by` at all, against the claim that a
present `sort_by` is always preserved. -/
theorem filter_submit_drops_empty_sort :
    handleSubmitParams [("color", "red")] (some "") = [("color", "red")]
    ∧ (handleSubmitParams [("color", "red")] (some "")).all
        (fun p => p.1 != "sort_by") = true := by
  constructor <;> decide

/-- Helper: the `every` predicate of the resolver holds exactly when
each selected position matches the variant field at that position. -/
theorem matchesOptions_iff_forall (v : Variant) (opts : List String) :
    matchesOptions v opts = true
      ↔ ∀ (i : Nat) (h : i < opts.length), variantOption v i = some opts[i] := by
  unfold matchesOptions
  rw [List.all_eq_true]
  rw [List.forall_mem_enum]
  simp [beq_iff_eq]

/-- Helper: for a selection whose length equals the variant's recorded
option count, matching means the recorded tuple equals the selection. -/
theorem matchesOptions_iff_eq (v : Variant) (opts : List String)
    (hlen : v.options.length = opts.length) :
    matchesOptions v opts = true ↔ v.options = opts.map some := by
  rw [matchesOptions_iff_forall]
  constructor
  · intro hall
    apply List.ext_getElem?
    intro i
    by_cases hi : i < opts.length
    · have h1 := hall i hi
      have h2 : v.options[i]? = some (some opts[i]) := by
        unfold variantOption at h1
        cases hv : v.options[i]? with
        | none => rw [hv] at h1; simp [Option.join] at h1
        | some o =>
          rw [hv] at h1
          cases o with
          | none => simp [Option.join] at h1
          | some x => simp [Option.join] at h1; rw [h1]
      rw [h2, List.getElem?_map, List.getElem?_eq_getElem hi]
      rfl
    · have hv : v.options[i]? = none := by
        rw [List.getElem?_eq_none_iff]
        omega
      have hm : (opts.map some)[i]? = none := by
        rw [List.getElem?_eq_none_iff]
        simpa using Nat.le_of_not_lt hi
      rw [hv, hm]
  · intro heq i hi
    unfold variantOption
    rw [heq, List.getElem?_map, List.getElem?_eq_getElem hi]
    rfl

/-- C1: for a complete selection (one value per declared option group,
in order) over a product whose variants all record one value per group,
the resolver returns exactly the variants whose recorded tuple equals
the selection, and `none` exactly when no variant matches; when option
tuples are unique per variant, the returned variant is that unique
match. -/
theorem getVariantFromOptions_unique_match (p : Product) (opts : List String)
    (hcomplete : opts.length = p.options.length)
    (hvlen : ∀ v ∈ p.variants, v.options.length = p.options.length)
    (huniq : ∀ v ∈ p.variants, ∀ w ∈ p.variants, v.options = w.options → v = w) :
    (∀ v, getVariantFromOptions (some p) opts = some v
        ↔ v ∈ p.variants ∧ v.options = opts.map some)
    ∧ (getVariantFromOptions (some p) opts = none
        ↔ ∀ v ∈ p.variants, v.options ≠ opts.map some) := by
  have hlen : ∀ v ∈ p.variants, v.options.length = opts.length :=
    fun v hv => (hvlen v hv).trans hcomplete.symm
  constructor
  · intro v
    constructor
    · intro hfind
      have hm := List.mem_of_find?_eq_some hfind
      have hp := List.find?_some hfind
      exact ⟨hm, (matchesOptions_iff_eq v opts (hlen v hm)).mp hp⟩
    · rintro ⟨hm, heq⟩
      have hpv : matchesOptions v opts = true :=
        (matchesOptions_iff_eq v opts (hlen v hm)).mpr heq
      have hsome : (p.variants.find? (fun v => matchesOptions v opts)).isSome := by
        rw [List.find?_isSome]
        exact ⟨v, hm, hpv⟩
      obtain ⟨w, hw⟩ := Option.isSome_iff_exists.mp hsome
      have hwm := List.mem_of_find?_eq_some hw
      have hwp := List.find?_some hw
      have hweq : w.options = opts.map some :=
        (matchesOptions_iff_eq w opts (hlen w hwm)).mp hwp
      have hwv : w = v := huniq w hwm v hm (hweq.trans heq.symm)
      show p.variants.find? (fun v => matchesOptions v opts) = some v
      rw [hw, hwv]
  · constructor
    · intro hnone v hm heq
      have h0 : p.variants.find? (fun v => matchesOptions v opts) = none := hnone
      rw [List.find?_eq_none] at h0
      exact h0 v hm ((matchesOptions_iff_eq v opts (hlen v hm)).mpr heq)
    · intro hno
      show p.variants.find? (fun v => matchesOptions v opts) = none
      rw [List.find?_eq_none]
      intro v hm hp
      exact hno v hm ((matchesOptions_iff_eq v opts (hlen v hm)).mp hp)

/-- Concrete two-option product for the C1 witness. -/
def pW : Product :=
  { variants :=
      [ { id := 1, options := [some "Red", some "S"], price := 1000,
          compare_at_price := none, available := true, sku := none,
          featured_media := none },
        { id := 2, options := [some "Blue", some "S"], price := 1200,
          compare_at_price := none, available := true, sku := none,
          featured_media := none } ],
    options := ["Color", "Size"] }

/-- The variant of `pW` carrying the tuple (Blue, S). -/
def vBlue : Variant :=
  { id := 2, options := [some "Blue", some "S"], price := 1200,
    compare_at_price := none, available := true, sku := none,
    featured_media := none }

/-- C1 witness: the resolver characterization instantiated at a
concrete product and complete selection. -/
theorem getVariantFromOptions_unique_match_witness :
    getVariantFromOptions (some pW) ["Blue", "S"] = some vBlue
      ↔ vBlue ∈ pW.variants ∧ vBlue.options = ["Blue", "S"].map some :=
  (getVariantFromOptions_unique_match pW ["Blue", "S"]
    (by decide) (by decide) (by decide)).1 vBlue

/-- Helper: `updateOptionAvailability` writes only the option buttons;
every other component of the form state is untouched. -/
theorem updateOptionAvailability_frame (p : Option Product) (sel : List String)
    (s : ProductFormState) :
    (updateOptionAvailability p sel s).variantIdInput = s.variantIdInput
    ∧ (updateOptionAvailability p sel s).priceHtml = s.priceHtml
    ∧ (updateOptionAvailability p sel s).btnDisabled = s.btnDisabled
    ∧ (updateOptionAvailability p sel s).btnText = s.btnText
    ∧ (updateOptionAvailability p sel s).optionLabels = s.optionLabels
    ∧ (updateOptionAvailability p sel s).urlVariant = s.urlVariant := by
  cases p with
  | none => exact ⟨rfl, rfl, rfl, rfl, rfl, rfl⟩
  | some pr =>
    by_cases hl : pr.options.length < 2 <;>
      simp [updateOptionAvailability, hl]

/-- Helper: `updateSku` writes only the SKU line. -/
theorem updateSku_frame (variant : Option Variant) (s : ProductFormState) :
    (updateSku variant s).variantIdInput = s.variantIdInput
    ∧ (updateSku variant s).priceHtml = s.priceHtml
    ∧ (updateSku variant s).btnDisabled = s.btnDisabled
    ∧ (updateSku variant s).btnText = s.btnText
    ∧ (updateSku variant s).optionLabels = s.optionLabels
    ∧ (updateSku variant s).urlVariant = s.urlVariant := by
  cases variant with
  | none => exact ⟨rfl, rfl, rfl, rfl, rfl, rfl⟩
  | some v =>
    dsimp only [updateSku]
    rcases hsk : v.sku with _ | sk
    · exact ⟨rfl, rfl, rfl, rfl, rfl, rfl⟩
    · by_cases he : sk = "" <;> simp [he]

/-- Helper: the gallery switch writes only the active media. -/
theorem updateMedia_frame (variantId : Nat) (p : Option Product) (s : ProductFormState) :
    (updateMedia variantId p s).variantIdInput = s.variantIdInput
    ∧ (updateMedia variantId p s).priceHtml = s.priceHtml
    ∧ (updateMedia variantId p s).btnDisabled = s.btnDisabled
    ∧ (updateMedia variantId p s).btnText = s.btnText
    ∧ (updateMedia variantId p s).optionLabels = s.optionLabels
    ∧ (updateMedia variantId p s).urlVariant = s.urlVariant := by
  have hg : ∃ g, updateMedia variantId p s = { s with galleryMedia := g } := by
    cases p with
    | none => exact ⟨s.galleryMedia, rfl⟩
    | some pr =>
      dsimp only [updateMedia]
      split
      · split
        · exact ⟨some _, rfl⟩
        · exact ⟨s.galleryMedia, rfl⟩
      · exact ⟨s.galleryMedia, rfl⟩
  obtain ⟨g, hgeq⟩ := hg
  rw [hgeq]
  exact ⟨rfl, rfl, rfl, rfl, rfl, rfl⟩

/-- C2 (amended): an option change whose selection resolves to no
variant still rewrites the option value labels from the selection and
disables the add-to-cart button with the Unavailable text, but leaves
the page URL unchanged, because `updateUrl` returns early without a
variant. -/
theorem option_change_unmatched (p : Option Product) (s : ProductFormState)
    (h : getVariantFromOptions p (getSelectedOptions s) = none) :
    (onOptionChange p s).btnDisabled = true
    ∧ (onOptionChange p s).btnText = "Unavailable"
    ∧ (∀ i : Nat, (onOptionChange p s).optionLabels[i]? =
        (s.optionLabels[i]?).map (fun old =>
          match (getSelectedOptions s)[i]? with
          | some v => if v = "" then old else v
          | none => old))
    ∧ (onOptionChange p s).urlVariant = s.urlVariant := by
  have hoa := updateOptionAvailability_frame p (getSelectedOptions s)
  simp only [onOptionChange, h, updateVariantId, updatePrice, updateAddToCartButton,
    updateUrl]
  set s4 := updateOptionLabels (getSelectedOptions s)
      { s with btnDisabled := true, btnText := "Unavailable" } with hs4
  have hsku := updateSku_frame none s4
  refine ⟨?_, ?_, ?_, ?_⟩
  · rw [(hoa _).2.2.1, hsku.2.2.1]
    rfl
  · rw [(hoa _).2.2.2.1, hsku.2.2.2.1]
    rfl
  · intro i
    rw [(hoa _).2.2.2.2.1, hsku.2.2.2.2.1]
    rw [hs4]
    simp only [updateOptionLabels]
    rw [List.getElem?_map, List.getElem?_enum]
    cases s.optionLabels[i]? with
    | none => rfl
    | some old => rfl
  · rw [(hoa _).2.2.2.2.2, hsku.2.2.2.2.2]
    rfl

/-- Concrete one-option product for the C2 and C10 instances: the only
variant has option value Red. -/
def pC2 : Product :=
  { variants :=
      [ { id := 1, options := [some "Red"], price := 1000,
          compare_at_price := none, available := true, sku := none,
          featured_media := none } ],
    options := ["Color"] }

/-- Concrete form state whose checked option is Blue, which no variant
of `pC2` carries; the URL still points at variant 999. -/
def sC2 : ProductFormState :=
  { variantIdInput := some 1, priceHtml := none, btnDisabled := false,
    btnText := "Add to Cart", optionLabels := ["Red"], skuText := none,
    skuHidden := true, urlVariant := some 999, galleryMedia := none,
    optionGroups := [[⟨"Red", false, false, false⟩, ⟨"Blue", true, false, false⟩]] }

/-- C2 counterexample: with the unmatched selection Blue the handler
leaves the page URL exactly as it was (still variant 999), while the
claim asserts the URL is still updated; the button does read
Unavailable. -/
theorem option_change_unmatched_url_not_updated :
    getVariantFromOptions (some pC2) (getSelectedOptions sC2) = none
    ∧ (onOptionChange (some pC2) sC2).urlVariant = some 999
    ∧ sC2.urlVariant = some 999
    ∧ (onOptionChange (some pC2) sC2).btnText = "Unavailable" := by
  decide

/-- C2 witness: the amended statement instantiated at the concrete
unmatched selection. -/
theorem option_change_unmatched_witness :
    (onOptionChange (some pC2) sC2).btnDisabled = true
    ∧ (onOptionChange (some pC2) sC2).btnText = "Unavailable"
    ∧ (onOptionChange (some pC2) sC2).optionLabels[0]? = some "Blue"
    ∧ (onOptionChange (some pC2) sC2).urlVariant = sC2.urlVariant := by
  obtain ⟨h1, h2, h3, h4⟩ := option_change_unmatched (some pC2) sC2 (by decide)
  refine ⟨h1, h2, ?_, h4⟩
  rw [h3 0]
  decide

/-- Helper: `updateUrl` never touches the hidden variant input or the
price container. -/
theorem updateUrl_frame (variant : Option Variant) (s : ProductFormState) :
    (updateUrl variant s).variantIdInput = s.variantIdInput
    ∧ (updateUrl variant s).priceHtml = s.priceHtml := by
  cases variant <;> exact ⟨rfl, rfl⟩

/-- Helper: the add-to-cart button update never touches the hidden
variant input or the price container. -/
theorem updateAddToCartButton_frame (variant : Option Variant) (s : ProductFormState) :
    (updateAddToCartButton variant s).variantIdInput = s.variantIdInput
    ∧ (updateAddToCartButton variant s).priceHtml = s.priceHtml := by
  cases variant with
  | none => exact ⟨rfl, rfl⟩
  | some v =>
    dsimp only [updateAddToCartButton]
    by_cases hav : v.available = true <;> simp [hav]

/-- C10: an option change that resolves to no variant leaves the hidden
variant-id input and the displayed price untouched, and in general the
variant-id input is either untouched or overwritten with the id of an
existing variant of the product, the one the resolver returned. -/
theorem variant_id_price_frame (p : Option Product) (s : ProductFormState) :
    (getVariantFromOptions p (getSelectedOptions s) = none →
      (onOptionChange p s).variantIdInput = s.variantIdInput
      ∧ (onOptionChange p s).priceHtml = s.priceHtml)
    ∧ ((onOptionChange p s).variantIdInput = s.variantIdInput
       ∨ ∃ v pr, p = some pr ∧ v ∈ pr.variants
           ∧ getVariantFromOptions p (getSelectedOptions s) = some v
           ∧ (onOptionChange p s).variantIdInput = some v.id) := by
  have hoa := updateOptionAvailability_frame p (getSelectedOptions s)
  have hlab : ∀ (sel' : List String) (t : ProductFormState),
      (updateOptionLabels sel' t).variantIdInput = t.variantIdInput
      ∧ (updateOptionLabels sel' t).priceHtml = t.priceHtml := fun _ _ => ⟨rfl, rfl⟩
  cases hv : getVariantFromOptions p (getSelectedOptions s) with
  | none =>
    have hmain : (onOptionChange p s).variantIdInput = s.variantIdInput
        ∧ (onOptionChange p s).priceHtml = s.priceHtml := by
      simp only [onOptionChange, hv, updateVariantId, updatePrice]
      set s4 := updateOptionLabels (getSelectedOptions s)
          (updateAddToCartButton none s) with hs4
      have hsku := updateSku_frame none s4
      constructor
      · rw [(updateOptionAvailability_frame p (getSelectedOptions s) _).1,
           (updateUrl_frame none _).1, hsku.1, hs4, (hlab _ _).1,
           (updateAddToCartButton_frame none s).1]
      · rw [(updateOptionAvailability_frame p (getSelectedOptions s) _).2.1,
           (updateUrl_frame none _).2, hsku.2.1, hs4, (hlab _ _).2,
           (updateAddToCartButton_frame none s).2]
    exact ⟨fun _ => hmain, Or.inl hmain.1⟩
  | some v =>
    constructor
    · intro h
      exact Option.noConfusion h
    · right
      cases p with
      | none => simp [getVariantFromOptions] at hv
      | some pr =>
        have hv' : pr.variants.find? (fun w => matchesOptions w (getSelectedOptions s))
            = some v := hv
        refine ⟨v, pr, rfl, List.mem_of_find?_eq_some hv', rfl, ?_⟩
        simp only [onOptionChange, hv, updateVariantId]
        rw [(updateMedia_frame v.id (some pr) _).1,
           (updateOptionAvailability_frame (some pr) (getSelectedOptions s) _).1,
           (updateUrl_frame (some v) _).1, (updateSku_frame (some v) _).1,
           (hlab _ _).1, (updateAddToCartButton_frame (some v) _).1]
        rfl

/-- C10 witness: the frame property instantiated at the concrete
unmatched selection. -/
theorem variant_id_price_frame_witness :
    (onOptionChange (some pC2) sC2).variantIdInput = sC2.variantIdInput
    ∧ (onOptionChange (some pC2) sC2).priceHtml = sC2.priceHtml :=
  (variant_id_price_frame (some pC2) sC2).1 (by decide)

/-- Helper: `updateButton` rewrites only the disabled flag and the
unavailable class; the input's value and checked state survive. -/
theorem updateButton_keeps_value_checked (pr : Product) (sel : List String)
    (gi : Nat) (b : OptButton) :
    (updateButton pr sel gi b).value = b.value
    ∧ (updateButton pr sel gi b).checked = b.checked := by
  dsimp only [updateButton]
  split
  · exact ⟨rfl, rfl⟩
  · exact ⟨rfl, rfl⟩

/-- Helper: the per-group find of the first checked button commutes
with the button update, because checked state and value survive it. -/
theorem find_checked_map_updateButton (pr : Product) (sel : List String)
    (gi : Nat) (g : List OptButton) :
    Option.map (fun b => b.value)
        ((g.map (fun b => updateButton pr sel gi b)).find? (fun b => b.checked))
      = Option.map (fun b => b.value) (g.find? (fun b => b.checked)) := by
  induction g with
  | nil => rfl
  | cons b g ih =>
    have hc := updateButton_keeps_value_checked pr sel gi b
    rw [List.map_cons, List.find?_cons, List.find?_cons, hc.2]
    cases hcb : b.checked with
    | false => exact ih
    | true => simp [hc.1]

/-- C7: for a product with at least two option groups, re-validating
option availability rewrites only disabled/unavailable flags: every
button keeps its value and checked state, the recorded selection is
unchanged, and every other part of the form state is untouched. -/
theorem availability_preserves_selection (pr : Product) (sel : List String)
    (s : ProductFormState) (h : 2 ≤ pr.options.length) :
    (updateOptionAvailability (some pr) sel s).optionGroups.map
        (fun g => g.map (fun b => (b.value, b.checked)))
      = s.optionGroups.map (fun g => g.map (fun b => (b.value, b.checked)))
    ∧ getSelectedOptions (updateOptionAvailability (some pr) sel s)
      = getSelectedOptions s := by
  have hnl : ¬ pr.options.length < 2 := Nat.not_lt.mpr h
  have hog : (updateOptionAvailability (some pr) sel s).optionGroups
      = s.optionGroups.enum.map (fun g => g.2.map (fun b => updateButton pr sel g.1 b)) := by
    dsimp only [updateOptionAvailability]
    rw [if_neg hnl]
  constructor
  · rw [hog, List.map_map]
    have hpt : ∀ p : Nat × List OptButton,
        ((fun g => g.map (fun b => (b.value, b.checked))) ∘
          (fun g : Nat × List OptButton =>
            g.2.map (fun b => updateButton pr sel g.1 b))) p
        = ((fun g : List OptButton => g.map (fun b => (b.value, b.checked)))
            ∘ Prod.snd) p := by
      intro p
      simp only [Function.comp_apply, List.map_map]
      apply List.map_congr_left
      intro b _
      have hc := updateButton_keeps_value_checked pr sel p.1 b
      simp [Function.comp_apply, hc.1, hc.2]
    rw [List.map_congr_left (fun p _ => hpt p)]
    rw [← List.map_map, List.enum_eq_enumFrom, List.enumFrom_map_snd]
  · simp only [getSelectedOptions]
    rw [hog, List.filterMap_map]
    have hpt : ∀ p ∈ s.optionGroups.enum,
        ((fun g => Option.map (fun b : OptButton => b.value)
            (g.find? (fun b => b.checked))) ∘
          (fun g : Nat × List OptButton =>
            g.2.map (fun b => updateButton pr sel g.1 b))) p
        = ((fun g => Option.map (fun b : OptButton => b.value)
            (g.find? (fun b => b.checked))) ∘ Prod.snd) p := by
      intro p _
      simp only [Function.comp_apply]
      exact find_checked_map_updateButton pr sel p.1 p.2
    rw [List.filterMap_congr hpt]
    rw [← List.filterMap_map, List.enum_eq_enumFrom, List.enumFrom_map_snd]

/-- Concrete two-option product and form for the C7 witness. -/
def sC7 : ProductFormState :=
  { variantIdInput := some 1, priceHtml := none, btnDisabled := false,
    btnText := "Add to Cart", optionLabels := ["Red", "S"], skuText := none,
    skuHidden := true, urlVariant := none, galleryMedia := none,
    optionGroups :=
      [ [⟨"Red", true, false, false⟩, ⟨"Blue", false, false, false⟩],
        [⟨"S", true, false, false⟩, ⟨"M", false, false, false⟩] ] }

/-- C7 witness: the frame property instantiated at a concrete
two-option product with a partial selection. -/
theorem availability_preserves_selection_witness :
    (updateOptionAvailability (some pW) ["Red"] sC7).optionGroups.map
        (fun g => g.map (fun b => (b.value, b.checked)))
      = sC7.optionGroups.map (fun g => g.map (fun b => (b.value, b.checked)))
    ∧ getSelectedOptions (updateOptionAvailability (some pW) ["Red"] sC7)
      = getSelectedOptions sC7 :=
  availability_preserves_selection pW ["Red"] sC7 (by decide)

/-- The invariant of the search modal event loop: every in-flight fetch
whose controller was not aborted is the current one and carries the
most recently issued query; while a debounce is armed the current
controller is already aborted; controller ids stay below the id
counter. -/
def SearchInv (s : SearchState) : Prop :=
  (∀ pr ∈ s.inflight, pr.1 ∉ s.aborted →
      s.current = some pr.1 ∧ s.lastIssued = some pr.2)
  ∧ (∀ q, s.timer = some q → ∀ id, s.current = some id → id ∈ s.aborted)
  ∧ (∀ pr ∈ s.inflight, pr.1 < s.nextId)
  ∧ (∀ id, s.current = some id → id < s.nextId)

theorem searchInv_init : SearchInv searchInit := by
  refine ⟨?_, ?_, ?_, ?_⟩ <;> simp [searchInit]

theorem mem_abortCurrent_of_mem (s : SearchState) {id : Nat} (h : id ∈ s.aborted) :
    id ∈ abortCurrent s := by
  unfold abortCurrent
  cases s.current <;> simp [h]

theorem current_mem_abortCurrent (s : SearchState) {id : Nat} (h : s.current = some id) :
    id ∈ abortCurrent s := by
  unfold abortCurrent
  rw [h]
  simp

theorem searchInv_step (s : SearchState) (e : SearchEvent) (h : SearchInv s) :
    SearchInv (searchStep s e) := by
  obtain ⟨h1, h2, h3, h4⟩ := h
  cases e with
  | input q =>
    by_cases hq : q.length < minChars <;>
      simp only [searchStep, hq, if_pos, if_neg, not_false_eq_true, if_true, if_false] <;>
      refine ⟨?_, ?_, ?_, ?_⟩
    · intro pr hpr hnab
      exact h1 pr hpr (fun hab => hnab (mem_abortCurrent_of_mem s hab))
    · intro q' hq' id
      cases hq'
    · exact h3
    · exact h4
    · intro pr hpr hnab
      exact h1 pr hpr (fun hab => hnab (mem_abortCurrent_of_mem s hab))
    · intro q' _ id hid
      exact current_mem_abortCurrent s hid
    · exact h3
    · exact h4
  | timerFire =>
    cases ht : s.timer with
    | none =>
      simp only [searchStep, ht]
      exact ⟨h1, h2, h3, h4⟩
    | some q =>
      simp only [searchStep, ht]
      refine ⟨?_, ?_, ?_, ?_⟩
      · intro pr hpr hnab
        rcases List.mem_cons.mp hpr with heq | hmem
        · subst heq
          exact ⟨rfl, rfl⟩
        · exact absurd (h2 q ht pr.1 (h1 pr hmem hnab).1) hnab
      · intro q' hq'
        cases hq'
      · intro pr hpr
        rcases List.mem_cons.mp hpr with heq | hmem
        · subst heq
          exact Nat.lt_succ_self _
        · exact Nat.lt_succ_of_lt (h3 pr hmem)
      · intro id hid
        cases hid
        exact Nat.lt_succ_self _
  | respond id outcome =>
    cases hf : s.inflight.find? (fun p => p.1 == id) with
    | none =>
      simp only [searchStep, hf]
      exact ⟨h1, h2, h3, h4⟩
    | some pr =>
      simp only [searchStep, hf]
      by_cases hab : id ∈ s.aborted <;> simp only [hab, if_pos, if_neg, not_false_eq_true,
        if_true, if_false] <;> refine ⟨?_, ?_, ?_, ?_⟩
      · intro pr' hpr' hnab
        exact h1 pr' (List.mem_of_mem_filter hpr') hnab
      · exact h2
      · intro pr' hpr'
        exact h3 pr' (List.mem_of_mem_filter hpr')
      · exact h4
      · intro pr' hpr' hnab
        exact h1 pr' (List.mem_of_mem_filter hpr') hnab
      · exact h2
      · intro pr' hpr'
        exact h3 pr' (List.mem_of_mem_filter hpr')
      · exact h4

theorem searchReachable_inv {s : SearchState} (h : SearchReachable s) : SearchInv s := by
  induction h with
  | init => exact searchInv_init
  | step e _ ih => exact searchInv_step _ e ih

/-- C5: in every reachable state of the search modal, (a) while the
debounce is armed every already-issued fetch has been aborted, so a new
fetch is only ever issued after all in-flight ones are cancelled, and
(b) whenever a settling fetch changes the results panel, it renders the
query of the most recently issued request: a stale in-flight request
never overwrites the results of a later one. -/
theorem search_renders_latest_query (s : SearchState) (hs : SearchReachable s) :
    (∀ q, s.timer = some q → ∀ pr ∈ s.inflight, pr.1 ∈ s.aborted)
    ∧ (∀ id outcome,
        (searchStep s (SearchEvent.respond id outcome)).panel ≠ s.panel →
        ∃ q, s.lastIssued = some q
          ∧ ((searchStep s (SearchEvent.respond id outcome)).panel = Panel.results q
             ∨ (searchStep s (SearchEvent.respond id outcome)).panel
                 = Panel.noResults q)) := by
  obtain ⟨h1, h2, h3, h4⟩ := searchReachable_inv hs
  constructor
  · intro q ht pr hpr
    by_contra hnab
    exact hnab (h2 q ht pr.1 (h1 pr hpr hnab).1)
  · intro id outcome hne
    cases hf : s.inflight.find? (fun p => p.1 == id) with
    | none =>
      exact absurd (by simp only [searchStep, hf]) hne
    | some pr =>
      by_cases hab : id ∈ s.aborted
      · exact absurd (by simp only [searchStep, hf, hab, if_true]) hne
      · have hmem := List.mem_of_find?_eq_some hf
        have hid : pr.1 = id := by
          have := List.find?_some hf
          simpa using this
        have hcur := h1 pr hmem (by rw [hid]; exact hab)
        refine ⟨pr.2, hcur.2, ?_⟩
        simp only [searchStep, hf, hab, if_false, if_neg, not_false_eq_true]
        cases outcome with
        | success found => cases found <;> simp [respondPanel]
        | fail => simp [respondPanel]

/-- Concrete reachable state for the C5 witness: a fetch for abc was
issued, then a further keystroke (abcd) aborted it and re-armed the
debounce. -/
def sW5 : SearchState :=
  searchStep (searchStep (searchStep searchInit (SearchEvent.input "abc"))
    SearchEvent.timerFire) (SearchEvent.input "abcd")

theorem sW5_reachable : SearchReachable sW5 :=
  SearchReachable.step (SearchEvent.input "abcd")
    (SearchReachable.step SearchEvent.timerFire
      (SearchReachable.step (SearchEvent.input "abc") SearchReachable.init))

/-- C5 witness: in the concrete state `sW5` the armed debounce implies
the in-flight fetch for abc is already aborted. -/
theorem search_renders_latest_query_witness : (0 : Nat) ∈ sW5.aborted :=
  (search_renders_latest_query sW5 sW5_reachable).1 "abcd" (by decide) (0, "abc") (by decide)
